import Mathlib

/-!
Shallow embedding of `guest/file_manager.go` (package `guest` of govmomi):
the guest-file-operations proxy `FileManager`, its `TransferURL` host and
thumbprint resolution with the per-host address cache, and the eleven
request/response forwarding operations.

External dependencies (the vim25 client, the property-retrieval collector,
`internal.HostSystemManagementIPs`, and the generated wire types) are modelled
as explicit data and oracle functions in an `Env` record, exactly as the spec
scopes them: "a generic invoke remote operation primitive" and "a
property-retrieval primitive". Mutation of the `hosts` cache and of the
client's thumbprint table (through the shared pointers `m.c`, `m.hosts`) is
modelled by returning the updated `FileManager` value.
-/

set_option autoImplicit false

namespace Govmomi

/-- `types.ManagedObjectReference`: a typed reference to a remote object. -/
structure ManagedObjectReference where
  type : String
  value : String
deriving DecidableEq, Repr

/-- `String()` of a managed object reference: `Type:Value`. -/
def ManagedObjectReference.toStr (r : ManagedObjectReference) : String :=
  r.type ++ ":" ++ r.value

/-- A parsed `net/url.URL`. Only the components `TransferURL` touches are
kept structured; `host` is the single `Host` component string (hostname with
optional port), exactly as Go stores it. -/
structure URL where
  scheme : String
  host : String
  path : String
deriving DecidableEq, Repr

/-- `net/url.validOptionalPort`: empty, or a colon followed by digits only. -/
def validOptionalPort (port : List Char) : Bool :=
  match port with
  | [] => true
  | c :: digits => c = ':' && digits.all (fun b => '0' ≤ b && b ≤ '9')

/-- Index of the last occurrence of `c` (Go `strings.LastIndexByte`). -/
def lastIndexOfChar (cs : List Char) (c : Char) : Option Nat :=
  match cs with
  | [] => none
  | a :: rest =>
    match lastIndexOfChar rest c with
    | some i => some (i + 1)
    | none => if a = c then some 0 else none

/-- Strip one layer of square brackets when the list both starts with `[`
and ends with `]` (Go `strings.HasPrefix`/`HasSuffix` check in
`splitHostPort`). -/
def stripSquareBrackets (cs : List Char) : List Char :=
  match cs with
  | '[' :: rest => if rest.getLast? = some ']' then rest.dropLast else '[' :: rest
  | _ => cs

/-- `net/url.splitHostPort`: split `Host` into hostname and numeric port at
the last colon, stripping IPv6 brackets from the hostname. -/
def splitHostPort (hostPort : String) : String × String :=
  let cs := hostPort.toList
  let hp : List Char × List Char :=
    match lastIndexOfChar cs ':' with
    | some i =>
      if validOptionalPort (cs.drop i) then (cs.take i, cs.drop (i + 1)) else (cs, [])
    | none => (cs, [])
  (String.mk (stripSquareBrackets hp.1), String.mk hp.2)

/-- `url.URL.Hostname()`. -/
def URL.hostname (u : URL) : String := (splitHostPort u.host).1

/-- `url.URL.Port()`. -/
def URL.port (u : URL) : String := (splitHostPort u.host).2

/-- `net.JoinHostPort`: bracket the host when it contains a colon. -/
def joinHostPort (host port : String) : String :=
  if host.toList.contains ':' then "[" ++ host ++ "]:" ++ port
  else host ++ ":" ++ port

/-- Association-list lookup, modelling Go map indexing `m[k]`. -/
def mapLookup : List (String × String) → String → Option String
  | [], _ => none
  | (k, v) :: rest, key => if k = key then some v else mapLookup rest key

/-- Association-list update, modelling Go map assignment `m[k] = v`. -/
def mapSet : List (String × String) → String → String → List (String × String)
  | [], k, v => [(k, v)]
  | (k0, v0) :: rest, k, v =>
    if k0 = k then (k, v) :: rest else (k0, v0) :: mapSet rest k v

/-- The slice of `vim25.Client` state `TransferURL` touches: the endpoint
URL's `Host` component, `IsVC()`, and the thumbprint table behind
`SetThumbprint`. -/
structure Client where
  urlHost : String
  isVC : Bool
  thumbprints : List (String × String)
deriving DecidableEq, Repr

/-- Modelled from the spec: `soap.Client.SetThumbprint` (vim25 transport
layer, not under `src/`) records the TLS trust thumbprint to use for a given
host, i.e. updates the client's thumbprint table at that host key. -/
def Client.setThumbprint (c : Client) (host tp : String) : Client :=
  { c with thumbprints := mapSet c.thumbprints host tp }

/-- `guest.FileManager`: manager reference, target VM reference, client
handle, and the mutex-guarded hostname-to-address cache `hosts`. -/
structure FileManager where
  self : ManagedObjectReference
  vm : ManagedObjectReference
  c : Client
  hosts : List (String × String)
deriving DecidableEq, Repr

/-- `FileManager.Reference()`. -/
def FileManager.Reference (m : FileManager) : ManagedObjectReference := m.self

/-- `types.HostVirtualNicManagerInfo.NetConfig`, kept abstract: the claims
depend only on the management-IP list the (external)
`internal.HostSystemManagementIPs` derives from it. -/
structure NetConfig where
  entries : List String
deriving DecidableEq, Repr

/-- The fields of `mo.VirtualMachine` retrieved by `TransferURL`:
`name` and `runtime.host` (nil when the VM has no runtime host). -/
structure VMInfo where
  name : String
  self : ManagedObjectReference
  runtimeHost : Option ManagedObjectReference
deriving DecidableEq, Repr

/-- `HostConfigInfo` as used here: only `virtualNicManagerInfo.netConfig`. -/
structure HostConfig where
  netConfig : NetConfig
deriving DecidableEq, Repr

/-- The fields of `mo.HostSystem` retrieved by `TransferURL`: `name`,
`runtime.connectionState`, `summary.config.sslThumbprint` and `config`
(a nil-able pointer, hence `Option`). -/
structure HostInfo where
  name : String
  self : ManagedObjectReference
  connectionState : String
  sslThumbprint : String
  config : Option HostConfig
deriving DecidableEq, Repr

/-- The external world `TransferURL` consults: the property-retrieval
primitive for the VM and for a host (each may fail), the repo-internal
helper `internal.HostSystemManagementIPs` as an uninterpreted function, and
the `GOVMOMI_USE_GUEST_TRANSFER_IP` preference (`useGuestTransferIP`). -/
structure Env where
  retrieveVM : ManagedObjectReference → Except String VMInfo
  retrieveHost : ManagedObjectReference → Except String HostInfo
  hostSystemManagementIPs : NetConfig → List String
  useGuestTransferIP : Bool

/-- A property-retrieval call made during `TransferURL`, for stating that a
path performs no (or exactly these) remote retrievals. -/
inductive RetrieveCall where
  | vmProps (ref : ManagedObjectReference)
  | hostProps (ref : ManagedObjectReference)
deriving DecidableEq, Repr

/-- Result of `TransferURL`: the `(url, error)` pair, the state of the
manager (cache and client) after the call, and the retrievals performed. -/
structure TUOut where
  res : Except String URL
  fm : FileManager
  retrievals : List RetrieveCall
deriving Repr

/-- Lines 136-138 of `TransferURL`: when the parsed hostname is the `"*"`
placeholder, replace the whole `Host` component (hostname and port) with the
client endpoint URL's `Host`. -/
def starRewrite (m : FileManager) (turl : URL) : URL :=
  if turl.hostname = "*" then { turl with host := m.c.urlHost } else turl

/-- The `fmt.Errorf` message produced when the retrieved host has
`Config == nil`. -/
def configNilMsg (vm : VMInfo) (host : HostInfo) : String :=
  "guest TransferURL failed for vm \"" ++ vm.name ++ "\" (" ++ vm.self.toStr ++
    "): host \"" ++ host.name ++ "\" (" ++ host.self.toStr ++
    ") config==nil, connectionState==" ++ host.connectionState

/-- `FileManager.TransferURL`. The argument `parsed` is the outcome of
`url.Parse(u)` (standard library, external): `TransferURL` propagates a parse
error and otherwise rewrites the parsed URL. -/
def TransferURL (m : FileManager) (env : Env) (parsed : Except String URL) : TUOut :=
  match parsed with
  | .error e => ⟨.error e, m, []⟩
  | .ok turl0 =>
    let turl := starRewrite m turl0
    if m.c.isVC = false then ⟨.ok turl, m, []⟩
    else
      let name := turl.hostname
      let port := turl.port
      match mapLookup m.hosts name with
      | some mname => ⟨.ok { turl with host := joinHostPort mname port }, m, []⟩
      | none =>
        match env.retrieveVM m.vm with
        | .error e => ⟨.error e, m, [.vmProps m.vm]⟩
        | .ok vm =>
          match vm.runtimeHost with
          | none => ⟨.ok turl, m, [.vmProps m.vm]⟩
          | some href =>
            match env.retrieveHost href with
            | .error e => ⟨.error e, m, [.vmProps m.vm, .hostProps href]⟩
            | .ok host =>
              match host.config with
              | none => ⟨.error (configNilMsg vm host), m, [.vmProps m.vm, .hostProps href]⟩
              | some cfg =>
                let ips := env.hostSystemManagementIPs cfg.netConfig
                let step : String × FileManager :=
                  match ips, env.useGuestTransferIP with
                  | [ip], true => (ip, { m with hosts := mapSet m.hosts name ip })
                  | _, _ => (name, m)
                let turl2 := { turl with host := joinHostPort step.1 port }
                let m3 := { step.2 with c := step.2.c.setThumbprint turl2.host host.sslThumbprint }
                ⟨.ok turl2, m3, [.vmProps m.vm, .hostProps href]⟩

/-! ### Generated wire types used by the forwarding operations

`types.BaseGuestAuthentication`, `types.BaseGuestFileAttributes` and the
`Returnval` payload types are externally-defined wire data the proxy passes
through unmodified; they are modelled as carriers of their payload. -/

namespace types

/-- `types.BaseGuestAuthentication` (polymorphic credential, passed through). -/
structure GuestAuthentication where
  authData : String
deriving DecidableEq, Repr

/-- `types.BaseGuestFileAttributes` (passed through). -/
structure GuestFileAttributes where
  attrData : String
deriving DecidableEq, Repr

/-- `types.FileTransferInformation` (`Returnval` of
`InitiateFileTransferFromGuest`). -/
structure FileTransferInformation where
  attributes : GuestFileAttributes
  size : Int
  url : String
deriving DecidableEq, Repr

/-- `types.GuestListFileInfo` (`Returnval` of `ListFilesInGuest`). -/
structure GuestListFileInfo where
  files : List String
  remaining : Int
deriving DecidableEq, Repr

/-- `types.ChangeFileAttributesInGuest` request. -/
structure ChangeFileAttributesInGuest where
  this : ManagedObjectReference
  vm : ManagedObjectReference
  auth : GuestAuthentication
  guestFilePath : String
  fileAttributes : GuestFileAttributes
deriving DecidableEq, Repr

/-- Response with no payload (`ChangeFileAttributesInGuestResponse` etc.). -/
structure EmptyResponse where
deriving DecidableEq, Repr

/-- `types.CreateTemporaryDirectoryInGuest` request (`pfx`/`sfx` are the Go
`Prefix`/`Suffix` fields). -/
structure CreateTemporaryDirectoryInGuest where
  this : ManagedObjectReference
  vm : ManagedObjectReference
  auth : GuestAuthentication
  pfx : String
  sfx : String
  directoryPath : String
deriving DecidableEq, Repr

/-- Response carrying a `Returnval` string. -/
structure StringResponse where
  returnval : String
deriving DecidableEq, Repr

/-- `types.CreateTemporaryFileInGuest` request (`pfx`/`sfx` are the Go
`Prefix`/`Suffix` fields). -/
structure CreateTemporaryFileInGuest where
  this : ManagedObjectReference
  vm : ManagedObjectReference
  auth : GuestAuthentication
  pfx : String
  sfx : String
  directoryPath : String
deriving DecidableEq, Repr

/-- `types.DeleteDirectoryInGuest` request. -/
structure DeleteDirectoryInGuest where
  this : ManagedObjectReference
  vm : ManagedObjectReference
  auth : GuestAuthentication
  directoryPath : String
  recursive : Bool
deriving DecidableEq, Repr

/-- `types.DeleteFileInGuest` request. -/
structure DeleteFileInGuest where
  this : ManagedObjectReference
  vm : ManagedObjectReference
  auth : GuestAuthentication
  filePath : String
deriving DecidableEq, Repr

/-- `types.InitiateFileTransferFromGuest` request. -/
structure InitiateFileTransferFromGuest where
  this : ManagedObjectReference
  vm : ManagedObjectReference
  auth : GuestAuthentication
  guestFilePath : String
deriving DecidableEq, Repr

/-- Response carrying a `FileTransferInformation` `Returnval`. -/
structure FileTransferInformationResponse where
  returnval : FileTransferInformation
deriving DecidableEq, Repr

/-- `types.InitiateFileTransferToGuest` request. -/
structure InitiateFileTransferToGuest where
  this : ManagedObjectReference
  vm : ManagedObjectReference
  auth : GuestAuthentication
  guestFilePath : String
  fileAttributes : GuestFileAttributes
  fileSize : Int
  overwrite : Bool
deriving DecidableEq, Repr

/-- `types.ListFilesInGuest` request. -/
structure ListFilesInGuest where
  this : ManagedObjectReference
  vm : ManagedObjectReference
  auth : GuestAuthentication
  filePath : String
  index : Int
  maxResults : Int
  matchPattern : String
deriving DecidableEq, Repr

/-- Response carrying a `GuestListFileInfo` `Returnval`. -/
structure GuestListFileInfoResponse where
  returnval : GuestListFileInfo
deriving DecidableEq, Repr

/-- `types.MakeDirectoryInGuest` request. -/
structure MakeDirectoryInGuest where
  this : ManagedObjectReference
  vm : ManagedObjectReference
  auth : GuestAuthentication
  directoryPath : String
  createParentDirectories : Bool
deriving DecidableEq, Repr

/-- `types.MoveDirectoryInGuest` request. -/
structure MoveDirectoryInGuest where
  this : ManagedObjectReference
  vm : ManagedObjectReference
  auth : GuestAuthentication
  srcDirectoryPath : String
  dstDirectoryPath : String
deriving DecidableEq, Repr

/-- `types.MoveFileInGuest` request. -/
structure MoveFileInGuest where
  this : ManagedObjectReference
  vm : ManagedObjectReference
  auth : GuestAuthentication
  srcFilePath : String
  dstFilePath : String
  overwrite : Bool
deriving DecidableEq, Repr

end types

/-! ### Forwarding operations

Each Go method builds one request, performs one `methods.X(ctx, m.c, &req)`
call and unwraps the result. The transport is modelled as an oracle
`call : Req → Except String Resp`; each operation returns its Go result pair,
the list of requests actually sent, and the (unchanged) manager state. -/

/-- `FileManager.ChangeFileAttributes`. -/
def FileManager.ChangeFileAttributes (m : FileManager) (auth : types.GuestAuthentication)
    (guestFilePath : String) (fileAttributes : types.GuestFileAttributes)
    (call : types.ChangeFileAttributesInGuest → Except String types.EmptyResponse) :
    Option String × List types.ChangeFileAttributesInGuest × FileManager :=
  let req : types.ChangeFileAttributesInGuest :=
    { this := m.Reference, vm := m.vm, auth := auth,
      guestFilePath := guestFilePath, fileAttributes := fileAttributes }
  match call req with
  | .error e => (some e, [req], m)
  | .ok _ => (none, [req], m)

/-- `FileManager.CreateTemporaryDirectory`. -/
def FileManager.CreateTemporaryDirectory (m : FileManager) (auth : types.GuestAuthentication)
    (pfx sfx : String) (path : String)
    (call : types.CreateTemporaryDirectoryInGuest → Except String types.StringResponse) :
    (String × Option String) × List types.CreateTemporaryDirectoryInGuest × FileManager :=
  let req : types.CreateTemporaryDirectoryInGuest :=
    { this := m.Reference, vm := m.vm, auth := auth,
      pfx := pfx, sfx := sfx, directoryPath := path }
  match call req with
  | .error e => (("", some e), [req], m)
  | .ok res => ((res.returnval, none), [req], m)

/-- `FileManager.CreateTemporaryFile`. -/
def FileManager.CreateTemporaryFile (m : FileManager) (auth : types.GuestAuthentication)
    (pfx sfx : String) (path : String)
    (call : types.CreateTemporaryFileInGuest → Except String types.StringResponse) :
    (String × Option String) × List types.CreateTemporaryFileInGuest × FileManager :=
  let req : types.CreateTemporaryFileInGuest :=
    { this := m.Reference, vm := m.vm, auth := auth,
      pfx := pfx, sfx := sfx, directoryPath := path }
  match call req with
  | .error e => (("", some e), [req], m)
  | .ok res => ((res.returnval, none), [req], m)

/-- `FileManager.DeleteDirectory`. -/
def FileManager.DeleteDirectory (m : FileManager) (auth : types.GuestAuthentication)
    (directoryPath : String) (recursive : Bool)
    (call : types.DeleteDirectoryInGuest → Except String types.EmptyResponse) :
    Option String × List types.DeleteDirectoryInGuest × FileManager :=
  let req : types.DeleteDirectoryInGuest :=
    { this := m.Reference, vm := m.vm, auth := auth,
      directoryPath := directoryPath, recursive := recursive }
  match call req with
  | .error e => (some e, [req], m)
  | .ok _ => (none, [req], m)

/-- `FileManager.DeleteFile`. -/
def FileManager.DeleteFile (m : FileManager) (auth : types.GuestAuthentication)
    (filePath : String)
    (call : types.DeleteFileInGuest → Except String types.EmptyResponse) :
    Option String × List types.DeleteFileInGuest × FileManager :=
  let req : types.DeleteFileInGuest :=
    { this := m.Reference, vm := m.vm, auth := auth, filePath := filePath }
  match call req with
  | .error e => (some e, [req], m)
  | .ok _ => (none, [req], m)

/-- `FileManager.InitiateFileTransferFromGuest`. -/
def FileManager.InitiateFileTransferFromGuest (m : FileManager)
    (auth : types.GuestAuthentication) (guestFilePath : String)
    (call : types.InitiateFileTransferFromGuest → Except String types.FileTransferInformationResponse) :
    (Option types.FileTransferInformation × Option String) ×
      List types.InitiateFileTransferFromGuest × FileManager :=
  let req : types.InitiateFileTransferFromGuest :=
    { this := m.Reference, vm := m.vm, auth := auth, guestFilePath := guestFilePath }
  match call req with
  | .error e => ((none, some e), [req], m)
  | .ok res => ((some res.returnval, none), [req], m)

/-- `FileManager.InitiateFileTransferToGuest`. -/
def FileManager.InitiateFileTransferToGuest (m : FileManager)
    (auth : types.GuestAuthentication) (guestFilePath : String)
    (fileAttributes : types.GuestFileAttributes) (fileSize : Int) (overwrite : Bool)
    (call : types.InitiateFileTransferToGuest → Except String types.StringResponse) :
    (String × Option String) × List types.InitiateFileTransferToGuest × FileManager :=
  let req : types.InitiateFileTransferToGuest :=
    { this := m.Reference, vm := m.vm, auth := auth,
      guestFilePath := guestFilePath, fileAttributes := fileAttributes,
      fileSize := fileSize, overwrite := overwrite }
  match call req with
  | .error e => (("", some e), [req], m)
  | .ok res => ((res.returnval, none), [req], m)

/-- `FileManager.ListFiles`. -/
def FileManager.ListFiles (m : FileManager) (auth : types.GuestAuthentication)
    (filePath : String) (index : Int) (maxResults : Int) (matchPattern : String)
    (call : types.ListFilesInGuest → Except String types.GuestListFileInfoResponse) :
    (Option types.GuestListFileInfo × Option String) × List types.ListFilesInGuest × FileManager :=
  let req : types.ListFilesInGuest :=
    { this := m.Reference, vm := m.vm, auth := auth, filePath := filePath,
      index := index, maxResults := maxResults, matchPattern := matchPattern }
  match call req with
  | .error e => ((none, some e), [req], m)
  | .ok res => ((some res.returnval, none), [req], m)

/-- `FileManager.MakeDirectory`. -/
def FileManager.MakeDirectory (m : FileManager) (auth : types.GuestAuthentication)
    (directoryPath : String) (createParentDirectories : Bool)
    (call : types.MakeDirectoryInGuest → Except String types.EmptyResponse) :
    Option String × List types.MakeDirectoryInGuest × FileManager :=
  let req : types.MakeDirectoryInGuest :=
    { this := m.Reference, vm := m.vm, auth := auth,
      directoryPath := directoryPath,
      createParentDirectories := createParentDirectories }
  match call req with
  | .error e => (some e, [req], m)
  | .ok _ => (none, [req], m)

/-- `FileManager.MoveDirectory`. -/
def FileManager.MoveDirectory (m : FileManager) (auth : types.GuestAuthentication)
    (srcDirectoryPath : String) (dstDirectoryPath : String)
    (call : types.MoveDirectoryInGuest → Except String types.EmptyResponse) :
    Option String × List types.MoveDirectoryInGuest × FileManager :=
  let req : types.MoveDirectoryInGuest :=
    { this := m.Reference, vm := m.vm, auth := auth,
      srcDirectoryPath := srcDirectoryPath, dstDirectoryPath := dstDirectoryPath }
  match call req with
  | .error e => (some e, [req], m)
  | .ok _ => (none, [req], m)

/-- `FileManager.MoveFile`. -/
def FileManager.MoveFile (m : FileManager) (auth : types.GuestAuthentication)
    (srcFilePath : String) (dstFilePath : String) (overwrite : Bool)
    (call : types.MoveFileInGuest → Except String types.EmptyResponse) :
    Option String × List types.MoveFileInGuest × FileManager :=
  let req : types.MoveFileInGuest :=
    { this := m.Reference, vm := m.vm, auth := auth,
      srcFilePath := srcFilePath, dstFilePath := dstFilePath,
      overwrite := overwrite }
  match call req with
  | .error e => (some e, [req], m)
  | .ok _ => (none, [req], m)

/-! ### Helper lemmas about the map model -/

theorem mapLookup_mapSet_self (l : List (String × String)) (k v : String) :
    mapLookup (mapSet l k v) k = some v := by
  induction l with
  | nil => simp [mapSet, mapLookup]
  | cons hd tl ih =>
    obtain ⟨k0, v0⟩ := hd
    by_cases h : k0 = k <;> simp [mapSet, mapLookup, h, ih]

theorem mapLookup_mapSet_ne (l : List (String × String)) (k k' v : String)
    (h : k' ≠ k) : mapLookup (mapSet l k v) k' = mapLookup l k' := by
  induction l with
  | nil => simp [mapSet, mapLookup, Ne.symm h]
  | cons hd tl ih =>
    obtain ⟨k0, v0⟩ := hd
    by_cases h0 : k0 = k
    · subst h0; simp [mapSet, mapLookup, Ne.symm h]
    · simp [mapSet, mapLookup, h0, ih]

/-- Characterization of the vCenter cache-miss success path of `TransferURL`
(retrieval of the VM and of its runtime host both succeed, host config
non-nil): the name actually used and the cache update depend on the
management-IP list and the `useGuestTransferIP` preference, and the
thumbprint is registered for the final host:port. -/
theorem transferURL_miss_success (m : FileManager) (env : Env) (turl : URL)
    (vm : VMInfo) (href : ManagedObjectReference) (host : HostInfo) (cfg : HostConfig)
    (hvc : m.c.isVC = true)
    (hmiss : mapLookup m.hosts (starRewrite m turl).hostname = none)
    (hvm : env.retrieveVM m.vm = .ok vm)
    (hrt : vm.runtimeHost = some href)
    (hhost : env.retrieveHost href = .ok host)
    (hcfg : host.config = some cfg) :
    TransferURL m env (.ok turl) =
      let name := (starRewrite m turl).hostname
      let port := (starRewrite m turl).port
      let step : String × FileManager :=
        match env.hostSystemManagementIPs cfg.netConfig, env.useGuestTransferIP with
        | [ip], true => (ip, { m with hosts := mapSet m.hosts name ip })
        | _, _ => (name, m)
      ⟨.ok { starRewrite m turl with host := joinHostPort step.1 port },
       { step.2 with
         c := step.2.c.setThumbprint (joinHostPort step.1 port) host.sslThumbprint },
       [.vmProps m.vm, .hostProps href]⟩ := by
  simp [TransferURL, hvc, hmiss, hvm, hrt, hhost, hcfg]

/-! ### Concrete fixtures used by witnesses and counterexamples -/

def exVMRef : ManagedObjectReference := ⟨"VirtualMachine", "vm-42"⟩

def exHostRef : ManagedObjectReference := ⟨"HostSystem", "host-7"⟩

def exFMRef : ManagedObjectReference := ⟨"GuestFileManager", "guestOperationsFileManager"⟩

def exNetConfig : NetConfig := ⟨["vnic0"]⟩

def exVM : VMInfo := ⟨"demo-vm", exVMRef, some exHostRef⟩

def exVMNoHost : VMInfo := ⟨"demo-vm", exVMRef, none⟩

def exHost : HostInfo :=
  ⟨"esx1.example.com", exHostRef, "connected", "AA:BB:CC:DD", some ⟨exNetConfig⟩⟩

def exHostNoConfig : HostInfo := ⟨"esx1.example.com", exHostRef, "disconnected", "", none⟩

def exFM : FileManager := ⟨exFMRef, exVMRef, ⟨"vc.example.com:443", true, []⟩, []⟩

def exFMESX : FileManager := ⟨exFMRef, exVMRef, ⟨"esx1.example.com:443", false, []⟩, []⟩

def exFMCached : FileManager :=
  { exFM with hosts := [("esx1.example.com", "10.0.0.9")] }

def exEnv : Env := ⟨fun _ => .ok exVM, fun _ => .ok exHost, fun _ => ["10.0.0.1"], true⟩

def exEnvNoIPs : Env := ⟨fun _ => .ok exVM, fun _ => .ok exHost, fun _ => [], true⟩

def exEnvNoRTHost : Env := { exEnv with retrieveVM := fun _ => .ok exVMNoHost }

def exEnvNoConfig : Env := { exEnv with retrieveHost := fun _ => .ok exHostNoConfig }

def exURLStar : URL := ⟨"https", "*:8443", "/guestFile"⟩

def exURLPlain : URL := ⟨"https", "esx1.example.com:443", "/guestFile"⟩

def exAuth : types.GuestAuthentication := ⟨"user:secret"⟩

def exAttr : types.GuestFileAttributes := ⟨"mode=0644"⟩

/-! ### Claim theorems -/

/-- C1: for every input URL whose parsed hostname is the placeholder `"*"`,
`TransferURL` replaces the URL's whole host component (hostname and port)
with the host component of the client's endpoint URL before any further
resolution, and for any other hostname the host component is left as parsed
at this step; in particular when not connected to vCenter the returned URL
is exactly this rewriting. -/
theorem C1_star_placeholder_replaced (m : FileManager) (env : Env) (turl : URL) :
    (turl.hostname = "*" → starRewrite m turl = { turl with host := m.c.urlHost }) ∧
    (turl.hostname ≠ "*" → starRewrite m turl = turl) ∧
    (m.c.isVC = false →
      (TransferURL m env (.ok turl)).res = .ok (starRewrite m turl)) := by
  refine ⟨fun h => by simp [starRewrite, h], fun h => by simp [starRewrite, h], fun h => ?_⟩
  simp [TransferURL, h]

theorem C1_star_placeholder_replaced_witness :
    (exURLStar.hostname = "*" ∧
      starRewrite exFM exURLStar = { exURLStar with host := exFM.c.urlHost }) ∧
    (exURLPlain.hostname ≠ "*" ∧ starRewrite exFM exURLPlain = exURLPlain) ∧
    (exFMESX.c.isVC = false ∧
      (TransferURL exFMESX exEnv (.ok exURLPlain)).res =
        .ok (starRewrite exFMESX exURLPlain)) :=
  ⟨⟨by decide, (C1_star_placeholder_replaced exFM exEnv exURLStar).1 (by decide)⟩,
   ⟨by decide, (C1_star_placeholder_replaced exFM exEnv exURLPlain).2.1 (by decide)⟩,
   ⟨rfl, (C1_star_placeholder_replaced exFMESX exEnv exURLPlain).2.2 rfl⟩⟩

/-- C2: when connected to vCenter and the URL's hostname (the cache key) has
an entry in the host address cache, `TransferURL` returns the URL with its
host set to the cached management address joined with the original URL's
port, performs no remote property retrieval, and changes no state. -/
theorem C2_cache_hit_short_circuit (m : FileManager) (env : Env) (turl : URL)
    (mname : String)
    (hvc : m.c.isVC = true)
    (hhit : mapLookup m.hosts (starRewrite m turl).hostname = some mname) :
    (TransferURL m env (.ok turl)).res =
      .ok { starRewrite m turl with
            host := joinHostPort mname (starRewrite m turl).port } ∧
    (TransferURL m env (.ok turl)).retrievals = [] ∧
    (TransferURL m env (.ok turl)).fm = m := by
  simp [TransferURL, hvc, hhit]

theorem C2_cache_hit_short_circuit_witness :
    exFMCached.c.isVC = true ∧
    mapLookup exFMCached.hosts (starRewrite exFMCached exURLPlain).hostname =
      some "10.0.0.9" ∧
    (TransferURL exFMCached exEnv (.ok exURLPlain)).res =
      .ok { starRewrite exFMCached exURLPlain with
            host := joinHostPort "10.0.0.9" (starRewrite exFMCached exURLPlain).port } ∧
    (TransferURL exFMCached exEnv (.ok exURLPlain)).retrievals = [] :=
  ⟨rfl, by decide,
   (C2_cache_hit_short_circuit exFMCached exEnv exURLPlain "10.0.0.9" rfl (by decide)).1,
   (C2_cache_hit_short_circuit exFMCached exEnv exURLPlain "10.0.0.9" rfl (by decide)).2.1⟩

/-- C8: when connected to vCenter with a cache miss, if the retrieved VM has
a nil runtime host, `TransferURL` returns the URL as rewritten so far (after
possible `"*"` replacement) with a nil error, and leaves the cache (indeed
all manager state) unchanged. -/
theorem C8_nil_runtime_host_ok (m : FileManager) (env : Env) (turl : URL)
    (vm : VMInfo)
    (hvc : m.c.isVC = true)
    (hmiss : mapLookup m.hosts (starRewrite m turl).hostname = none)
    (hvm : env.retrieveVM m.vm = .ok vm)
    (hrt : vm.runtimeHost = none) :
    (TransferURL m env (.ok turl)).res = .ok (starRewrite m turl) ∧
    (TransferURL m env (.ok turl)).fm = m := by
  simp [TransferURL, hvc, hmiss, hvm, hrt]

theorem C8_nil_runtime_host_ok_witness :
    exFM.c.isVC = true ∧
    mapLookup exFM.hosts (starRewrite exFM exURLPlain).hostname = none ∧
    exEnvNoRTHost.retrieveVM exFM.vm = .ok exVMNoHost ∧
    exVMNoHost.runtimeHost = none ∧
    (TransferURL exFM exEnvNoRTHost (.ok exURLPlain)).res =
      .ok (starRewrite exFM exURLPlain) ∧
    (TransferURL exFM exEnvNoRTHost (.ok exURLPlain)).fm = exFM :=
  ⟨rfl, by decide, rfl, rfl,
   (C8_nil_runtime_host_ok exFM exEnvNoRTHost exURLPlain exVMNoHost rfl (by decide) rfl rfl).1,
   (C8_nil_runtime_host_ok exFM exEnvNoRTHost exURLPlain exVMNoHost rfl (by decide) rfl rfl).2⟩

/-- C9: when connected to vCenter with a cache miss and a non-nil VM runtime
host, if the retrieved host's config is nil, `TransferURL` returns a nil URL
together with a non-nil error whose message names the VM and the host, and
the manager state (in particular the host address cache) is unchanged. -/
theorem C9_config_nil_error_atomic (m : FileManager) (env : Env) (turl : URL)
    (vm : VMInfo) (href : ManagedObjectReference) (host : HostInfo)
    (hvc : m.c.isVC = true)
    (hmiss : mapLookup m.hosts (starRewrite m turl).hostname = none)
    (hvm : env.retrieveVM m.vm = .ok vm)
    (hrt : vm.runtimeHost = some href)
    (hhost : env.retrieveHost href = .ok host)
    (hcfg : host.config = none) :
    (TransferURL m env (.ok turl)).res = .error (configNilMsg vm host) ∧
    (∃ a b : String, configNilMsg vm host = a ++ vm.name ++ b) ∧
    (∃ a b : String, configNilMsg vm host = a ++ host.name ++ b) ∧
    (TransferURL m env (.ok turl)).fm = m := by
  refine ⟨?_, ?_, ?_, ?_⟩
  · simp [TransferURL, hvc, hmiss, hvm, hrt, hhost, hcfg]
  · exact ⟨"guest TransferURL failed for vm \"",
      "\" (" ++ vm.self.toStr ++ "): host \"" ++ host.name ++ "\" (" ++ host.self.toStr ++
        ") config==nil, connectionState==" ++ host.connectionState,
      by simp only [configNilMsg, String.append_assoc]⟩
  · exact ⟨"guest TransferURL failed for vm \"" ++ vm.name ++ "\" (" ++ vm.self.toStr ++
        "): host \"",
      "\" (" ++ host.self.toStr ++ ") config==nil, connectionState==" ++
        host.connectionState,
      by simp only [configNilMsg, String.append_assoc]⟩
  · simp [TransferURL, hvc, hmiss, hvm, hrt, hhost, hcfg]

theorem C9_config_nil_error_atomic_witness :
    exHostNoConfig.config = none ∧
    (TransferURL exFM exEnvNoConfig (.ok exURLPlain)).res =
      .error (configNilMsg exVM exHostNoConfig) ∧
    (TransferURL exFM exEnvNoConfig (.ok exURLPlain)).fm = exFM :=
  ⟨rfl,
   (C9_config_nil_error_atomic exFM exEnvNoConfig exURLPlain exVM exHostRef exHostNoConfig
      rfl (by decide) rfl rfl rfl rfl).1,
   (C9_config_nil_error_atomic exFM exEnvNoConfig exURLPlain exVM exHostRef exHostNoConfig
      rfl (by decide) rfl rfl rfl rfl).2.2.2⟩

/-- C3: when connected to vCenter with a cache miss, a successfully
retrieved runtime host and a non-nil host config, `TransferURL` registers in
the client's thumbprint table, under the resolved host (a hostname joined
with the original port), that host's SSL thumbprint, and the returned URL's
host equals that resolved host. -/
theorem C3_thumbprint_for_resolved_host (m : FileManager) (env : Env) (turl : URL)
    (vm : VMInfo) (href : ManagedObjectReference) (host : HostInfo) (cfg : HostConfig)
    (hvc : m.c.isVC = true)
    (hmiss : mapLookup m.hosts (starRewrite m turl).hostname = none)
    (hvm : env.retrieveVM m.vm = .ok vm)
    (hrt : vm.runtimeHost = some href)
    (hhost : env.retrieveHost href = .ok host)
    (hcfg : host.config = some cfg) :
    ∃ u : URL, ∃ hn : String,
      (TransferURL m env (.ok turl)).res = .ok u ∧
      u.host = joinHostPort hn (starRewrite m turl).port ∧
      mapLookup (TransferURL m env (.ok turl)).fm.c.thumbprints u.host =
        some host.sslThumbprint := by
  rw [transferURL_miss_success m env turl vm href host cfg hvc hmiss hvm hrt hhost hcfg]
  simp only [Client.setThumbprint]
  split
  · exact ⟨_, _, rfl, rfl, mapLookup_mapSet_self _ _ _⟩
  · exact ⟨_, _, rfl, rfl, mapLookup_mapSet_self _ _ _⟩

theorem C3_thumbprint_for_resolved_host_witness :
    exFM.c.isVC = true ∧
    mapLookup exFM.hosts (starRewrite exFM exURLPlain).hostname = none ∧
    ∃ u : URL, ∃ hn : String,
      (TransferURL exFM exEnv (.ok exURLPlain)).res = .ok u ∧
      u.host = joinHostPort hn (starRewrite exFM exURLPlain).port ∧
      mapLookup (TransferURL exFM exEnv (.ok exURLPlain)).fm.c.thumbprints u.host =
        some exHost.sslThumbprint :=
  ⟨rfl, by decide,
   C3_thumbprint_for_resolved_host exFM exEnv exURLPlain exVM exHostRef exHost
     ⟨exNetConfig⟩ rfl (by decide) rfl rfl rfl rfl⟩

/-- C4 counterexample: the address cache is not the only state written by
`TransferURL`: on a concrete vCenter cache-miss call that resolves a host,
the client's thumbprint table changes (here the cache itself is even left
unchanged, since no single management IP is reported). -/
theorem C4_only_cache_counterexample :
    (TransferURL exFM exEnvNoIPs (.ok exURLPlain)).fm.hosts = exFM.hosts ∧
    (TransferURL exFM exEnvNoIPs (.ok exURLPlain)).fm.c.thumbprints ≠
      exFM.c.thumbprints := by
  exact ⟨rfl, by decide⟩

/-- C4 (amended): `TransferURL` mutates only the host address cache and the
client's thumbprint table; every other component of the proxy state (the
manager reference, the VM reference, the client's endpoint host and its
vCenter/ESX kind) is unchanged after the call. -/
theorem C4_frame_cache_and_thumbprints_only (m : FileManager) (env : Env)
    (p : Except String URL) :
    (TransferURL m env p).fm.self = m.self ∧
    (TransferURL m env p).fm.vm = m.vm ∧
    (TransferURL m env p).fm.c.urlHost = m.c.urlHost ∧
    (TransferURL m env p).fm.c.isVC = m.c.isVC := by
  rcases p with e | turl
  · exact ⟨rfl, rfl, rfl, rfl⟩
  · simp only [TransferURL]
    repeat' split
    all_goals simp [Client.setThumbprint]

/-- Case analysis on the cache after `TransferURL`: either it is untouched,
or exactly one entry was added at a key that previously had no entry. -/
theorem transferURL_hosts_cases (m : FileManager) (env : Env)
    (p : Except String URL) :
    (TransferURL m env p).fm.hosts = m.hosts ∨
    ∃ name ip, mapLookup m.hosts name = none ∧
      (TransferURL m env p).fm.hosts = mapSet m.hosts name ip := by
  rcases p with e | turl
  · left; rfl
  · simp only [TransferURL]
    split
    · left; rfl
    split
    · left; rfl
    rename_i hmiss
    repeat' split
    all_goals first
      | (left; rfl)
      | (right; exact ⟨_, _, hmiss, rfl⟩)

/-- C5: the host address cache is never invalidated: every entry present
before any `TransferURL` call is present with the same value afterwards
(the forwarding operations do not touch the manager state at all, see C6);
the cache only ever gains entries at previously-absent keys. -/
theorem C5_cache_never_invalidated (m : FileManager) (env : Env)
    (p : Except String URL) (k v : String)
    (hk : mapLookup m.hosts k = some v) :
    mapLookup (TransferURL m env p).fm.hosts k = some v := by
  rcases transferURL_hosts_cases m env p with h | ⟨name, ip, hnone, h⟩
  · rw [h]; exact hk
  · rw [h, mapLookup_mapSet_ne]
    · exact hk
    · rintro rfl; rw [hk] at hnone; cases hnone

theorem C5_cache_never_invalidated_witness :
    mapLookup exFMCached.hosts "esx1.example.com" = some "10.0.0.9" ∧
    mapLookup (TransferURL exFMCached exEnv (.ok exURLStar)).fm.hosts
      "esx1.example.com" = some "10.0.0.9" :=
  ⟨by decide,
   C5_cache_never_invalidated exFMCached exEnv (.ok exURLStar) "esx1.example.com"
     "10.0.0.9" (by decide)⟩

/-- C10: on the vCenter cache-miss path that reaches management-IP
selection, if the host reports a number of management IPs different from one
or the `GOVMOMI_USE_GUEST_TRANSFER_IP` preference is disabled, the
guest-reported hostname is kept (joined with the original port), the cache
is not populated, and the thumbprint is still registered for that host;
only with exactly one management IP and the preference enabled is that IP
used as the host and cached under the hostname. -/
theorem C10_management_ip_selection (m : FileManager) (env : Env) (turl : URL)
    (vm : VMInfo) (href : ManagedObjectReference) (host : HostInfo) (cfg : HostConfig)
    (hvc : m.c.isVC = true)
    (hmiss : mapLookup m.hosts (starRewrite m turl).hostname = none)
    (hvm : env.retrieveVM m.vm = .ok vm)
    (hrt : vm.runtimeHost = some href)
    (hhost : env.retrieveHost href = .ok host)
    (hcfg : host.config = some cfg) :
    ((env.hostSystemManagementIPs cfg.netConfig).length ≠ 1 ∨
        env.useGuestTransferIP = false →
      (TransferURL m env (.ok turl)).res =
        .ok { starRewrite m turl with
              host := joinHostPort (starRewrite m turl).hostname
                        (starRewrite m turl).port } ∧
      (TransferURL m env (.ok turl)).fm.hosts = m.hosts ∧
      mapLookup (TransferURL m env (.ok turl)).fm.c.thumbprints
          (joinHostPort (starRewrite m turl).hostname (starRewrite m turl).port) =
        some host.sslThumbprint) ∧
    (∀ ip, env.hostSystemManagementIPs cfg.netConfig = [ip] →
        env.useGuestTransferIP = true →
      (TransferURL m env (.ok turl)).res =
        .ok { starRewrite m turl with
              host := joinHostPort ip (starRewrite m turl).port } ∧
      mapLookup (TransferURL m env (.ok turl)).fm.hosts
          (starRewrite m turl).hostname = some ip ∧
      mapLookup (TransferURL m env (.ok turl)).fm.c.thumbprints
          (joinHostPort ip (starRewrite m turl).port) = some host.sslThumbprint) := by
  rw [transferURL_miss_success m env turl vm href host cfg hvc hmiss hvm hrt hhost hcfg]
  constructor
  · intro hnot
    rcases hips : env.hostSystemManagementIPs cfg.netConfig with _ | ⟨ip, _ | ⟨ip2, l⟩⟩
    · simp [Client.setThumbprint, hips, mapLookup_mapSet_self]
    · have hflag : env.useGuestTransferIP = false := by
        rcases hnot with hlen | hflag
        · exact absurd (by simp [hips]) hlen
        · exact hflag
      simp [Client.setThumbprint, hips, hflag, mapLookup_mapSet_self]
    · simp [Client.setThumbprint, hips, mapLookup_mapSet_self]
  · intro ip hips hflag
    simp [Client.setThumbprint, hips, hflag, mapLookup_mapSet_self]

theorem C10_management_ip_selection_witness :
    ((exEnvNoIPs.hostSystemManagementIPs exNetConfig).length ≠ 1 ∧
      (TransferURL exFM exEnvNoIPs (.ok exURLPlain)).fm.hosts = exFM.hosts ∧
      mapLookup (TransferURL exFM exEnvNoIPs (.ok exURLPlain)).fm.c.thumbprints
          (joinHostPort (starRewrite exFM exURLPlain).hostname
            (starRewrite exFM exURLPlain).port) =
        some exHost.sslThumbprint) ∧
    (exEnv.hostSystemManagementIPs exNetConfig = ["10.0.0.1"] ∧
      (TransferURL exFM exEnv (.ok exURLPlain)).res =
        .ok { starRewrite exFM exURLPlain with
              host := joinHostPort "10.0.0.1" (starRewrite exFM exURLPlain).port } ∧
      mapLookup (TransferURL exFM exEnv (.ok exURLPlain)).fm.hosts
          (starRewrite exFM exURLPlain).hostname = some "10.0.0.1") :=
  ⟨⟨by decide,
    ((C10_management_ip_selection exFM exEnvNoIPs exURLPlain exVM exHostRef exHost
        ⟨exNetConfig⟩ rfl (by decide) rfl rfl rfl rfl).1 (.inl (by decide))).2.1,
    ((C10_management_ip_selection exFM exEnvNoIPs exURLPlain exVM exHostRef exHost
        ⟨exNetConfig⟩ rfl (by decide) rfl rfl rfl rfl).1 (.inl (by decide))).2.2⟩,
   ⟨rfl,
    ((C10_management_ip_selection exFM exEnv exURLPlain exVM exHostRef exHost
        ⟨exNetConfig⟩ rfl (by decide) rfl rfl rfl rfl).2 "10.0.0.1" rfl rfl).1,
    ((C10_management_ip_selection exFM exEnv exURLPlain exVM exHostRef exHost
        ⟨exNetConfig⟩ rfl (by decide) rfl rfl rfl rfl).2 "10.0.0.1" rfl rfl).2.1⟩⟩

/-- C6: every file/directory operation performs exactly one remote
request/response call and leaves the proxy's local state (manager reference,
VM reference, client, host address cache) unchanged, whether the remote call
succeeds or fails. -/
theorem C6_one_shot_no_state_transition :
    (∀ (m : FileManager) (auth : types.GuestAuthentication) (gfp : String)
        (fa : types.GuestFileAttributes)
        (call : types.ChangeFileAttributesInGuest → Except String types.EmptyResponse),
        (m.ChangeFileAttributes auth gfp fa call).2.2 = m ∧
        (m.ChangeFileAttributes auth gfp fa call).2.1.length = 1) ∧
    (∀ (m : FileManager) (auth : types.GuestAuthentication) (pfx sfx path : String)
        (call : types.CreateTemporaryDirectoryInGuest → Except String types.StringResponse),
        (m.CreateTemporaryDirectory auth pfx sfx path call).2.2 = m ∧
        (m.CreateTemporaryDirectory auth pfx sfx path call).2.1.length = 1) ∧
    (∀ (m : FileManager) (auth : types.GuestAuthentication) (pfx sfx path : String)
        (call : types.CreateTemporaryFileInGuest → Except String types.StringResponse),
        (m.CreateTemporaryFile auth pfx sfx path call).2.2 = m ∧
        (m.CreateTemporaryFile auth pfx sfx path call).2.1.length = 1) ∧
    (∀ (m : FileManager) (auth : types.GuestAuthentication) (dp : String) (rec : Bool)
        (call : types.DeleteDirectoryInGuest → Except String types.EmptyResponse),
        (m.DeleteDirectory auth dp rec call).2.2 = m ∧
        (m.DeleteDirectory auth dp rec call).2.1.length = 1) ∧
    (∀ (m : FileManager) (auth : types.GuestAuthentication) (fp : String)
        (call : types.DeleteFileInGuest → Except String types.EmptyResponse),
        (m.DeleteFile auth fp call).2.2 = m ∧
        (m.DeleteFile auth fp call).2.1.length = 1) ∧
    (∀ (m : FileManager) (auth : types.GuestAuthentication) (gfp : String)
        (call : types.InitiateFileTransferFromGuest →
          Except String types.FileTransferInformationResponse),
        (m.InitiateFileTransferFromGuest auth gfp call).2.2 = m ∧
        (m.InitiateFileTransferFromGuest auth gfp call).2.1.length = 1) ∧
    (∀ (m : FileManager) (auth : types.GuestAuthentication) (gfp : String)
        (fa : types.GuestFileAttributes) (sz : Int) (ow : Bool)
        (call : types.InitiateFileTransferToGuest → Except String types.StringResponse),
        (m.InitiateFileTransferToGuest auth gfp fa sz ow call).2.2 = m ∧
        (m.InitiateFileTransferToGuest auth gfp fa sz ow call).2.1.length = 1) ∧
    (∀ (m : FileManager) (auth : types.GuestAuthentication) (fp : String)
        (idx mr : Int) (pat : String)
        (call : types.ListFilesInGuest → Except String types.GuestListFileInfoResponse),
        (m.ListFiles auth fp idx mr pat call).2.2 = m ∧
        (m.ListFiles auth fp idx mr pat call).2.1.length = 1) ∧
    (∀ (m : FileManager) (auth : types.GuestAuthentication) (dp : String) (cpd : Bool)
        (call : types.MakeDirectoryInGuest → Except String types.EmptyResponse),
        (m.MakeDirectory auth dp cpd call).2.2 = m ∧
        (m.MakeDirectory auth dp cpd call).2.1.length = 1) ∧
    (∀ (m : FileManager) (auth : types.GuestAuthentication) (src dst : String)
        (call : types.MoveDirectoryInGuest → Except String types.EmptyResponse),
        (m.MoveDirectory auth src dst call).2.2 = m ∧
        (m.MoveDirectory auth src dst call).2.1.length = 1) ∧
    (∀ (m : FileManager) (auth : types.GuestAuthentication) (src dst : String) (ow : Bool)
        (call : types.MoveFileInGuest → Except String types.EmptyResponse),
        (m.MoveFile auth src dst ow call).2.2 = m ∧
        (m.MoveFile auth src dst ow call).2.1.length = 1) := by
  refine ⟨?_, ?_, ?_, ?_, ?_, ?_, ?_, ?_, ?_, ?_, ?_⟩ <;>
    (intros
     simp only [FileManager.ChangeFileAttributes, FileManager.CreateTemporaryDirectory,
       FileManager.CreateTemporaryFile, FileManager.DeleteDirectory,
       FileManager.DeleteFile, FileManager.InitiateFileTransferFromGuest,
       FileManager.InitiateFileTransferToGuest, FileManager.ListFiles,
       FileManager.MakeDirectory, FileManager.MoveDirectory, FileManager.MoveFile]
     split <;> exact ⟨rfl, rfl⟩)

/-- C7: every forwarding operation marshals exactly its arguments plus the
stored manager reference and VM reference into the request object; on
success it returns the response's `Returnval` unmodified, and on failure it
returns the zero value of its result type together with exactly the error
produced by the remote invocation. -/
theorem C7_pure_forwarding :
    (∀ (m : FileManager) (auth : types.GuestAuthentication) (gfp : String)
        (fa : types.GuestFileAttributes)
        (call : types.ChangeFileAttributesInGuest → Except String types.EmptyResponse)
        (req : types.ChangeFileAttributesInGuest),
        req = { this := m.Reference, vm := m.vm, auth := auth, guestFilePath := gfp,
                fileAttributes := fa } →
        (∀ r, call req = .ok r →
          m.ChangeFileAttributes auth gfp fa call = (none, [req], m)) ∧
        (∀ e, call req = .error e →
          m.ChangeFileAttributes auth gfp fa call = (some e, [req], m))) ∧
    (∀ (m : FileManager) (auth : types.GuestAuthentication) (pfx sfx path : String)
        (call : types.CreateTemporaryDirectoryInGuest → Except String types.StringResponse)
        (req : types.CreateTemporaryDirectoryInGuest),
        req = { this := m.Reference, vm := m.vm, auth := auth, pfx := pfx, sfx := sfx,
                directoryPath := path } →
        (∀ r, call req = .ok r →
          m.CreateTemporaryDirectory auth pfx sfx path call =
            ((r.returnval, none), [req], m)) ∧
        (∀ e, call req = .error e →
          m.CreateTemporaryDirectory auth pfx sfx path call =
            (("", some e), [req], m))) ∧
    (∀ (m : FileManager) (auth : types.GuestAuthentication) (pfx sfx path : String)
        (call : types.CreateTemporaryFileInGuest → Except String types.StringResponse)
        (req : types.CreateTemporaryFileInGuest),
        req = { this := m.Reference, vm := m.vm, auth := auth, pfx := pfx, sfx := sfx,
                directoryPath := path } →
        (∀ r, call req = .ok r →
          m.CreateTemporaryFile auth pfx sfx path call =
            ((r.returnval, none), [req], m)) ∧
        (∀ e, call req = .error e →
          m.CreateTemporaryFile auth pfx sfx path call = (("", some e), [req], m))) ∧
    (∀ (m : FileManager) (auth : types.GuestAuthentication) (dp : String) (rec : Bool)
        (call : types.DeleteDirectoryInGuest → Except String types.EmptyResponse)
        (req : types.DeleteDirectoryInGuest),
        req = { this := m.Reference, vm := m.vm, auth := auth, directoryPath := dp,
                recursive := rec } →
        (∀ r, call req = .ok r → m.DeleteDirectory auth dp rec call = (none, [req], m)) ∧
        (∀ e, call req = .error e →
          m.DeleteDirectory auth dp rec call = (some e, [req], m))) ∧
    (∀ (m : FileManager) (auth : types.GuestAuthentication) (fp : String)
        (call : types.DeleteFileInGuest → Except String types.EmptyResponse)
        (req : types.DeleteFileInGuest),
        req = { this := m.Reference, vm := m.vm, auth := auth, filePath := fp } →
        (∀ r, call req = .ok r → m.DeleteFile auth fp call = (none, [req], m)) ∧
        (∀ e, call req = .error e → m.DeleteFile auth fp call = (some e, [req], m))) ∧
    (∀ (m : FileManager) (auth : types.GuestAuthentication) (gfp : String)
        (call : types.InitiateFileTransferFromGuest →
          Except String types.FileTransferInformationResponse)
        (req : types.InitiateFileTransferFromGuest),
        req = { this := m.Reference, vm := m.vm, auth := auth, guestFilePath := gfp } →
        (∀ r, call req = .ok r →
          m.InitiateFileTransferFromGuest auth gfp call =
            ((some r.returnval, none), [req], m)) ∧
        (∀ e, call req = .error e →
          m.InitiateFileTransferFromGuest auth gfp call =
            ((none, some e), [req], m))) ∧
    (∀ (m : FileManager) (auth : types.GuestAuthentication) (gfp : String)
        (fa : types.GuestFileAttributes) (sz : Int) (ow : Bool)
        (call : types.InitiateFileTransferToGuest → Except String types.StringResponse)
        (req : types.InitiateFileTransferToGuest),
        req = { this := m.Reference, vm := m.vm, auth := auth, guestFilePath := gfp,
                fileAttributes := fa, fileSize := sz, overwrite := ow } →
        (∀ r, call req = .ok r →
          m.InitiateFileTransferToGuest auth gfp fa sz ow call =
            ((r.returnval, none), [req], m)) ∧
        (∀ e, call req = .error e →
          m.InitiateFileTransferToGuest auth gfp fa sz ow call =
            (("", some e), [req], m))) ∧
    (∀ (m : FileManager) (auth : types.GuestAuthentication) (fp : String)
        (idx mr : Int) (pat : String)
        (call : types.ListFilesInGuest → Except String types.GuestListFileInfoResponse)
        (req : types.ListFilesInGuest),
        req = { this := m.Reference, vm := m.vm, auth := auth, filePath := fp,
                index := idx, maxResults := mr, matchPattern := pat } →
        (∀ r, call req = .ok r →
          m.ListFiles auth fp idx mr pat call = ((some r.returnval, none), [req], m)) ∧
        (∀ e, call req = .error e →
          m.ListFiles auth fp idx mr pat call = ((none, some e), [req], m))) ∧
    (∀ (m : FileManager) (auth : types.GuestAuthentication) (dp : String) (cpd : Bool)
        (call : types.MakeDirectoryInGuest → Except String types.EmptyResponse)
        (req : types.MakeDirectoryInGuest),
        req = { this := m.Reference, vm := m.vm, auth := auth, directoryPath := dp,
                createParentDirectories := cpd } →
        (∀ r, call req = .ok r → m.MakeDirectory auth dp cpd call = (none, [req], m)) ∧
        (∀ e, call req = .error e →
          m.MakeDirectory auth dp cpd call = (some e, [req], m))) ∧
    (∀ (m : FileManager) (auth : types.GuestAuthentication) (src dst : String)
        (call : types.MoveDirectoryInGuest → Except String types.EmptyResponse)
        (req : types.MoveDirectoryInGuest),
        req = { this := m.Reference, vm := m.vm, auth := auth, srcDirectoryPath := src,
                dstDirectoryPath := dst } →
        (∀ r, call req = .ok r → m.MoveDirectory auth src dst call = (none, [req], m)) ∧
        (∀ e, call req = .error e →
          m.MoveDirectory auth src dst call = (some e, [req], m))) ∧
    (∀ (m : FileManager) (auth : types.GuestAuthentication) (src dst : String) (ow : Bool)
        (call : types.MoveFileInGuest → Except String types.EmptyResponse)
        (req : types.MoveFileInGuest),
        req = { this := m.Reference, vm := m.vm, auth := auth, srcFilePath := src,
                dstFilePath := dst, overwrite := ow } →
        (∀ r, call req = .ok r → m.MoveFile auth src dst ow call = (none, [req], m)) ∧
        (∀ e, call req = .error e →
          m.MoveFile auth src dst ow call = (some e, [req], m))) := by
  refine ⟨?_, ?_, ?_, ?_, ?_, ?_, ?_, ?_, ?_, ?_, ?_⟩ <;>
    (intros
     rename_i hreq
     subst hreq
     constructor <;>
       (intro x hx
        simp [FileManager.ChangeFileAttributes, FileManager.CreateTemporaryDirectory,
          FileManager.CreateTemporaryFile, FileManager.DeleteDirectory,
          FileManager.DeleteFile, FileManager.InitiateFileTransferFromGuest,
          FileManager.InitiateFileTransferToGuest, FileManager.ListFiles,
          FileManager.MakeDirectory, FileManager.MoveDirectory, FileManager.MoveFile,
          hx]))

theorem C7_pure_forwarding_witness :
    exFM.CreateTemporaryFile exAuth "tmp" ".log" "/tmp"
        (fun _ => .ok ⟨"/tmp/tmp1.log"⟩) =
      (("/tmp/tmp1.log", none),
       [{ this := exFM.Reference, vm := exFM.vm, auth := exAuth, pfx := "tmp",
          sfx := ".log", directoryPath := "/tmp" }], exFM) ∧
    exFM.InitiateFileTransferFromGuest exAuth "/etc/hosts" (fun _ => .error "fault") =
      ((none, some "fault"),
       [{ this := exFM.Reference, vm := exFM.vm, auth := exAuth,
          guestFilePath := "/etc/hosts" }], exFM) :=
  ⟨(C7_pure_forwarding.2.2.1 exFM exAuth "tmp" ".log" "/tmp"
      (fun _ => .ok ⟨"/tmp/tmp1.log"⟩) _ rfl).1 ⟨"/tmp/tmp1.log"⟩ rfl,
   (C7_pure_forwarding.2.2.2.2.2.1 exFM exAuth "/etc/hosts"
      (fun _ => .error "fault") _ rfl).2 "fault" rfl⟩

end Govmomi
